import Mathlib

/-!
Shallow embedding of `src/main.py`, a FastAPI diagnostic service exposing
PostgreSQL and Redis connectivity-test endpoints.

Modelling conventions:
* Backend state is explicit: `PgState` holds the database catalog
  (`pg_database`) and the optional `test_connection` table; `RedisState`
  holds the key/value store with absolute expiry times.  Server time is an
  explicit `Nat` parameter (seconds).
* A backend fault is an oracle `Option Fault`: the exception fires when
  execution reaches the step named by `Fault.point` (`acquire` = obtaining
  the connection, `query` = the catalog SELECT in create-db, `action` = the
  main statement).  `Fault.operational` distinguishes
  `sqlalchemy.exc.OperationalError` from other exception classes, which
  matters only in `pg_connect` (its `except` clause catches only
  `OperationalError`).  An oracle whose point is never reached behaves as
  no fault.
* `HResult` is the handler outcome: `success` (HTTP 200 with a typed body),
  `httpError code detail` (a raised `HTTPException`, rendered by FastAPI as
  that status code with body `{"detail": detail}`), or `unhandled msg` (an
  exception that escaped the handler uncaught).
* `ConnTrace` records whether the handler acquired a database connection
  and whether it released it by the time it exited.  `with engine.connect()`
  blocks release via the context manager on every path; the raw connections
  in create-db/drop-db are closed only by explicit `close()` calls.
-/

/-- Flat JSON scalar values, used where a claim is about the serialized
shape of a response field. -/
inductive JValue where
  | jNull : JValue
  | jBool : Bool → JValue
  | jInt : Int → JValue
  | jStr : String → JValue
deriving Repr, DecidableEq

/-- Whether a JSON value is a text (string) value. -/
def JValue.isText : JValue → Bool
  | .jStr _ => true
  | _ => false

/-- Outcome of one HTTP handler invocation. -/
inductive HResult (β : Type) where
  | success : β → HResult β
  | httpError : Nat → String → HResult β
  | unhandled : String → HResult β
deriving Repr, DecidableEq

/-- The HTTP status code of a handler outcome (`none` when the exception
escaped the handler and no `HTTPException` was produced). -/
def HResult.statusCode : HResult β → Option Nat
  | .success _ => some 200
  | .httpError c _ => some c
  | .unhandled _ => none

/-- The `detail` field of a raised `HTTPException`, if any. -/
def HResult.detail : HResult β → Option String
  | .httpError _ d => some d
  | _ => none

/-- Where in a handler's body the backend exception fires. -/
inductive FaultPoint where
  | acquire : FaultPoint
  | query : FaultPoint
  | action : FaultPoint
deriving Repr, DecidableEq

/-- A backend fault oracle: the step it fires at, whether it is an
`OperationalError`, and its `str(e)` message. -/
structure Fault where
  point : FaultPoint
  operational : Bool
  msg : String
deriving Repr, DecidableEq

/-- Connection acquisition/release bookkeeping for one handler run. -/
structure ConnTrace where
  acquired : Bool
  released : Bool
deriving Repr, DecidableEq

/-- A row of the `test_connection` table:
`id SERIAL PRIMARY KEY, message TEXT NOT NULL, created_at TIMESTAMP DEFAULT NOW()`. -/
structure Row where
  id : Int
  message : String
  createdAt : Nat
deriving Repr, DecidableEq

/-- Rendering of a server timestamp as text (Python `str(row[2])`). -/
def tsToString (t : Nat) : String := toString t

/-- The `test_connection` table: its rows plus the next value of the
`SERIAL` id sequence. -/
structure TableState where
  rows : List Row
  nextId : Int
deriving Repr, DecidableEq

/-- PostgreSQL server state as the service sees it: the `pg_database`
catalog and the optional `test_connection` table of the current database. -/
structure PgState where
  databases : List String
  table : Option TableState
deriving Repr, DecidableEq

/-- The two names rejected by `/pg/drop-db`
(`if db_name in ("openLLM", "postgres")`). -/
def protectedDbNames : List String := ["openLLM", "postgres"]

/-- Success body of `GET /pg/connect`. -/
structure PgConnectBody where
  status : String
  version : String
deriving Repr, DecidableEq

/-- `GET /pg/connect`: `SELECT version()` inside `with engine.connect()`,
catching only `OperationalError` and re-raising it as
`HTTPException(500, f"PG connection failed: {e}")`. -/
def pg_connect (version : String) (fault : Option Fault) :
    HResult PgConnectBody × ConnTrace :=
  match fault with
  | some ⟨.acquire, op, m⟩ =>
    if op then (.httpError 500 ("PG connection failed: " ++ m), ⟨false, false⟩)
    else (.unhandled m, ⟨false, false⟩)
  | some ⟨.action, op, m⟩ =>
    if op then (.httpError 500 ("PG connection failed: " ++ m), ⟨true, true⟩)
    else (.unhandled m, ⟨true, true⟩)
  | _ => (.success ⟨"connected", version⟩, ⟨true, true⟩)

/-- Success body of `POST /pg/create-table`. -/
structure CreateTableBody where
  status : String
  message : String
deriving Repr, DecidableEq

/-- State-changing handler outcome for handlers using `with engine.connect()`. -/
structure Outcome (β : Type) where
  state : PgState
  result : HResult β
  conn : ConnTrace
deriving Repr, DecidableEq

/-- `POST /pg/create-table`: `CREATE TABLE IF NOT EXISTS test_connection`,
catching `Exception` as `HTTPException(500, str(e))`. -/
def pg_create_table (s : PgState) (fault : Option Fault) : Outcome CreateTableBody :=
  match fault with
  | some ⟨.acquire, _, m⟩ => ⟨s, .httpError 500 m, ⟨false, false⟩⟩
  | some ⟨.action, _, m⟩ => ⟨s, .httpError 500 m, ⟨true, true⟩⟩
  | _ =>
    match s.table with
    | some _ => ⟨s, .success ⟨"ok", "test_connection table created"⟩, ⟨true, true⟩⟩
    | none =>
      ⟨{ s with table := some ⟨[], 1⟩ },
       .success ⟨"ok", "test_connection table created"⟩, ⟨true, true⟩⟩

/-- Success body of `POST /pg/insert`. -/
structure InsertBody where
  status : String
  id : Int
  message : String
  created_at : String
deriving Repr, DecidableEq

/-- `POST /pg/insert`: `INSERT INTO test_connection (message) VALUES (:msg)
RETURNING id, message, created_at`, catching `Exception` as
`HTTPException(500, str(e))`.  Inserting into a missing table is a backend
error surfaced the same way. -/
def pg_insert (s : PgState) (message : String) (now : Nat) (fault : Option Fault) :
    Outcome InsertBody :=
  match fault with
  | some ⟨.acquire, _, m⟩ => ⟨s, .httpError 500 m, ⟨false, false⟩⟩
  | some ⟨.action, _, m⟩ => ⟨s, .httpError 500 m, ⟨true, true⟩⟩
  | _ =>
    match s.table with
    | none =>
      ⟨s, .httpError 500 "relation \x22test_connection\x22 does not exist", ⟨true, true⟩⟩
    | some t =>
      let row : Row := ⟨t.nextId, message, now⟩
      ⟨{ s with table := some ⟨t.rows ++ [row], t.nextId + 1⟩ },
       .success ⟨"inserted", row.id, row.message, tsToString row.createdAt⟩,
       ⟨true, true⟩⟩

/-- One row of the `/pg/read` response as serialized into JSON:
`{"id": r[0], "message": r[1], "created_at": str(r[2])}`. -/
structure SerializedRow where
  id : JValue
  message : JValue
  created_at : JValue
deriving Repr, DecidableEq

/-- Serialization of a table row in the `/pg/read` response. -/
def serializeRow (r : Row) : SerializedRow :=
  ⟨.jInt r.id, .jStr r.message, .jStr (tsToString r.createdAt)⟩

/-- Descending-id order on rows (`ORDER BY id DESC`). -/
def rowDescId (a b : Row) : Prop := b.id ≤ a.id

instance : DecidableRel rowDescId := fun a b =>
  inferInstanceAs (Decidable (b.id ≤ a.id))

instance : IsTotal Row rowDescId := ⟨fun a b => Int.le_total b.id a.id⟩

instance : IsTrans Row rowDescId := ⟨fun _ _ _ hab hbc => le_trans hbc hab⟩

/-- `ORDER BY id DESC` applied to the whole table. -/
def sortRowsDesc (l : List Row) : List Row := List.insertionSort rowDescId l

/-- The rows produced by `SELECT ... ORDER BY id DESC LIMIT 10`. -/
def readRows (t : TableState) : List Row := (sortRowsDesc t.rows).take 10

/-- Success body of `GET /pg/read`. -/
structure ReadBody where
  status : String
  count : Nat
  rows : List SerializedRow
deriving Repr, DecidableEq

/-- `GET /pg/read`: `SELECT id, message, created_at FROM test_connection
ORDER BY id DESC LIMIT 10`, with `count = len(rows)`, catching `Exception`
as `HTTPException(500, str(e))`. -/
def pg_read (s : PgState) (fault : Option Fault) : HResult ReadBody × ConnTrace :=
  match fault with
  | some ⟨.acquire, _, m⟩ => (.httpError 500 m, ⟨false, false⟩)
  | some ⟨.action, _, m⟩ => (.httpError 500 m, ⟨true, true⟩)
  | _ =>
    match s.table with
    | none =>
      (.httpError 500 "relation \x22test_connection\x22 does not exist", ⟨true, true⟩)
    | some t =>
      (.success ⟨"ok", (readRows t).length, (readRows t).map serializeRow⟩,
       ⟨true, true⟩)

/-- Success body of `/pg/create-db` and `/pg/drop-db`. -/
structure DbBody where
  status : String
  db_name : String
deriving Repr, DecidableEq

/-- Outcome of the raw-connection handlers (`/pg/create-db`, `/pg/drop-db`):
`issued` records whether the CREATE/DROP DATABASE statement was executed. -/
structure RawOutcome where
  state : PgState
  result : HResult DbBody
  conn : ConnTrace
  issued : Bool
deriving Repr, DecidableEq

/-- `POST /pg/create-db`: on a raw autocommit connection, first
`SELECT 1 FROM pg_database WHERE datname = %s`; if a row comes back, close
and return `already_exists`; otherwise `CREATE DATABASE "{db_name}"`, close
and return `created`.  `Exception` is caught as `HTTPException(500, str(e))`;
on that path the explicit `cursor.close()` / `raw_conn.close()` calls are
skipped. -/
def pg_create_db (s : PgState) (db_name : String) (fault : Option Fault) :
    RawOutcome :=
  match fault with
  | some ⟨.acquire, _, m⟩ => ⟨s, .httpError 500 m, ⟨false, false⟩, false⟩
  | some ⟨.query, _, m⟩ => ⟨s, .httpError 500 m, ⟨true, false⟩, false⟩
  | some ⟨.action, _, m⟩ =>
    if db_name ∈ s.databases then
      ⟨s, .success ⟨"already_exists", db_name⟩, ⟨true, true⟩, false⟩
    else
      ⟨s, .httpError 500 m, ⟨true, false⟩, true⟩
  | none =>
    if db_name ∈ s.databases then
      ⟨s, .success ⟨"already_exists", db_name⟩, ⟨true, true⟩, false⟩
    else
      ⟨{ s with databases := db_name :: s.databases },
       .success ⟨"created", db_name⟩, ⟨true, true⟩, true⟩

/-- `DELETE /pg/drop-db`: rejects `openLLM` and `postgres` with
`HTTPException(400, "Cannot drop protected database")` before entering the
`try` block; otherwise `DROP DATABASE IF EXISTS "{db_name}"` on a raw
autocommit connection.  `Exception` is caught as `HTTPException(500, str(e))`;
on that path the explicit close calls are skipped. -/
def pg_drop_db (s : PgState) (db_name : String) (fault : Option Fault) :
    RawOutcome :=
  if db_name ∈ protectedDbNames then
    ⟨s, .httpError 400 "Cannot drop protected database", ⟨false, false⟩, false⟩
  else
    match fault with
    | some ⟨.acquire, _, m⟩ => ⟨s, .httpError 500 m, ⟨false, false⟩, false⟩
    | some ⟨.action, _, m⟩ => ⟨s, .httpError 500 m, ⟨true, false⟩, true⟩
    | _ =>
      ⟨{ s with databases := s.databases.erase db_name },
       .success ⟨"dropped", db_name⟩, ⟨true, true⟩, true⟩

/-- Success body of `GET /pg/tables`. -/
structure TablesBody where
  status : String
  tables : List String
deriving Repr, DecidableEq

/-- `GET /pg/tables`: SQLAlchemy inspector table-name listing (the model
tracks only the `test_connection` table), catching `Exception` as
`HTTPException(500, str(e))`. -/
def pg_tables (s : PgState) (fault : Option Fault) : HResult TablesBody :=
  match fault with
  | some f => .httpError 500 f.msg
  | none =>
    .success ⟨"ok", match s.table with | some _ => ["test_connection"] | none => []⟩

/-- Success body of `GET /redis/connect`. -/
structure RedisConnectBody where
  status : String
  ping : Bool
  redis_version : String
deriving Repr, DecidableEq

/-- `GET /redis/connect`: `ping()` plus `info("server")`, catching
`Exception` as `HTTPException(500, f"Redis connection failed: {e}")`. -/
def redis_connect (redisVersion : String) (fault : Option String) :
    HResult RedisConnectBody :=
  match fault with
  | some m => .httpError 500 ("Redis connection failed: " ++ m)
  | none => .success ⟨"connected", true, redisVersion⟩

/-- Redis store: for each key, the stored string value and its absolute
expiry time in seconds.  Every write in this service sets an expiry. -/
structure RedisState where
  store : List (String × String × Nat)
deriving Repr, DecidableEq

/-- Lookup of a key's (value, expiry) entry. -/
def redisFind (s : RedisState) (k : String) : Option (String × Nat) :=
  (s.store.find? (fun e => e.1 == k)).map (fun e => (e.2.1, e.2.2))

/-- `SET key value EX ex` at time `now`: overwrites any existing entry. -/
def redisSet (s : RedisState) (k v : String) (ex now : Nat) : RedisState :=
  ⟨(k, v, now + ex) :: s.store.filter (fun e => e.1 != k)⟩

/-- `GET key` at time `now`: the value while the key is live, else absent. -/
def redisGet (s : RedisState) (k : String) (now : Nat) : Option String :=
  match redisFind s k with
  | some (v, exp) => if now < exp then some v else none
  | none => none

/-- `TTL key` at time `now`: remaining seconds while live, `-2` when the
key does not exist (or has expired). -/
def redisTtl (s : RedisState) (k : String) (now : Nat) : Int :=
  match redisFind s k with
  | some (_, exp) => if now < exp then (exp : Int) - now else -2
  | none => -2

/-- Success body of `POST /redis/write`. -/
structure RedisWriteBody where
  status : String
  key : String
  value : String
  ttl : Nat
deriving Repr, DecidableEq

/-- `POST /redis/write`: `redis_client.set(key, value, ex=300)`, catching
`Exception` as `HTTPException(500, str(e))`. -/
def redis_write (s : RedisState) (key value : String) (now : Nat)
    (fault : Option String) : RedisState × HResult RedisWriteBody :=
  match fault with
  | some m => (s, .httpError 500 m)
  | none => (redisSet s key value 300 now, .success ⟨"written", key, value, 300⟩)

/-- Success body of `GET /redis/read`. -/
structure RedisReadBody where
  status : String
  key : String
  value : Option String
  ttl : Int
deriving Repr, DecidableEq

/-- `GET /redis/read`: `get(key)` and `ttl(key)`, catching `Exception` as
`HTTPException(500, str(e))`. -/
def redis_read (s : RedisState) (key : String) (now : Nat)
    (fault : Option String) : HResult RedisReadBody :=
  match fault with
  | some m => .httpError 500 m
  | none => .success ⟨"ok", key, redisGet s key now, redisTtl s key now⟩

/-- One section value of the `/test-all` response dictionary:
`{"status": "ok", ...extra}` or `{"status": "error", "detail": detail}`. -/
inductive SectionResult where
  | secOk : List (String × JValue) → SectionResult
  | secError : String → SectionResult
deriving Repr, DecidableEq

/-- The `status` field of a `/test-all` section. -/
def SectionResult.status : SectionResult → String
  | .secOk _ => "ok"
  | .secError _ => "error"

/-- JSON rendering of an optional string (Redis read-back value). -/
def optStrToJ : Option String → JValue
  | none => .jNull
  | some v => .jStr v

/-- `GET /test-all`: three independent `try`/`except` blocks (PG version
query; create-table + insert + row count; Redis ping + write + read-back),
each writing its own key of the `results` dict with either its ok payload
or `{"status": "error", "detail": str(e)}`. -/
def test_all (pgVersion : String) (s : PgState) (rs : RedisState)
    (now : Nat) (pgConnectFault pgRwFault redisFault : Option String) :
    PgState × RedisState × List (String × SectionResult) :=
  let pgc : SectionResult :=
    match pgConnectFault with
    | some m => .secError m
    | none => .secOk [("version", .jStr pgVersion)]
  let srw : PgState × SectionResult :=
    match pgRwFault with
    | some m => (s, .secError m)
    | none =>
      let t := s.table.getD ⟨[], 1⟩
      let t' : TableState :=
        ⟨t.rows ++ [⟨t.nextId, "test_all at " ++ tsToString now, now⟩], t.nextId + 1⟩
      ({ s with table := some t' }, .secOk [("row_count", .jInt t'.rows.length)])
  let rrw : RedisState × SectionResult :=
    match redisFault with
    | some m => (rs, .secError m)
    | none =>
      let rs2 := redisSet rs "testall_key" "testall_value" 60 now
      (rs2, .secOk [("ping", .jBool true),
                    ("read_back", optStrToJ (redisGet rs2 "testall_key" now))])
  (srw.1, rrw.1,
   [("pg_connect", pgc), ("pg_readwrite", srw.2), ("redis", rrw.2)])

/-- Success body of `GET /`. -/
structure RootBody where
  status : String
  service : String
deriving Repr, DecidableEq

/-- `GET /`: fixed health response, no backend call. -/
def root : HResult RootBody := .success ⟨"ok", "testdb"⟩

/-- Iterated `/pg/drop-db` on the same name: the state after `n` calls,
with a fault oracle per call. -/
def dropIter (s : PgState) (name : String) (faults : Nat → Option Fault) :
    Nat → PgState
  | 0 => s
  | n + 1 => (pg_drop_db (dropIter s name faults n) name (faults n)).state

/-- C1: every call of `/pg/drop-db` with `db_name` equal to `"postgres"` or
`"openLLM"` returns HTTP 400 with no connection acquired and no drop
statement issued, whatever the backend fault oracle says, and iterating the
handler any number of times leaves the database state unchanged. -/
theorem pg_drop_db_protected_rejected (s : PgState) (fault : Option Fault)
    (faults : Nat → Option Fault) (n : Nat) :
    pg_drop_db s "postgres" fault =
      ⟨s, .httpError 400 "Cannot drop protected database", ⟨false, false⟩, false⟩ ∧
    pg_drop_db s "openLLM" fault =
      ⟨s, .httpError 400 "Cannot drop protected database", ⟨false, false⟩, false⟩ ∧
    dropIter s "postgres" faults n = s ∧
    dropIter s "openLLM" faults n = s := by
  have hp : ∀ (s' : PgState) (f : Option Fault),
      pg_drop_db s' "postgres" f =
        ⟨s', .httpError 400 "Cannot drop protected database", ⟨false, false⟩, false⟩ := by
    intro s' f
    simp [pg_drop_db, protectedDbNames]
  have ho : ∀ (s' : PgState) (f : Option Fault),
      pg_drop_db s' "openLLM" f =
        ⟨s', .httpError 400 "Cannot drop protected database", ⟨false, false⟩, false⟩ := by
    intro s' f
    simp [pg_drop_db, protectedDbNames]
  refine ⟨hp s fault, ho s fault, ?_, ?_⟩
  · induction n with
    | zero => rfl
    | succ k ih => rw [dropIter, ih, hp]
  · induction n with
    | zero => rfl
    | succ k ih => rw [dropIter, ih, ho]

/-- C10: the `/pg/drop-db` protection is an exact, case-sensitive match:
the handler answers HTTP 400 exactly when `db_name` is the string
`"openLLM"` or the string `"postgres"`; for any other name (case variants
included) the drop-if-exists statement is issued, the name is removed from
the catalog and the handler answers `dropped`. -/
theorem pg_drop_db_protection_exact (s : PgState) (name : String)
    (fault : Option Fault) :
    ((pg_drop_db s name fault).result.statusCode = some 400 ↔
      name = "openLLM" ∨ name = "postgres") ∧
    (¬(name = "openLLM" ∨ name = "postgres") → fault = none →
      (pg_drop_db s name fault).issued = true ∧
      (pg_drop_db s name fault).result = .success ⟨"dropped", name⟩ ∧
      (pg_drop_db s name fault).state = ⟨s.databases.erase name, s.table⟩) := by
  by_cases h : name ∈ protectedDbNames
  · have hd : name = "openLLM" ∨ name = "postgres" := by
      simpa [protectedDbNames] using h
    refine ⟨⟨fun _ => hd, fun _ => ?_⟩, fun hn _ => absurd hd hn⟩
    simp [pg_drop_db, h, HResult.statusCode]
  · constructor
    · constructor
      · intro h400
        exfalso
        match fault with
        | none =>
          simp [pg_drop_db, h, HResult.statusCode] at h400
        | some ⟨.acquire, op, m⟩ =>
          simp [pg_drop_db, h, HResult.statusCode] at h400
        | some ⟨.query, op, m⟩ =>
          simp [pg_drop_db, h, HResult.statusCode] at h400
        | some ⟨.action, op, m⟩ =>
          simp [pg_drop_db, h, HResult.statusCode] at h400
      · intro hd
        exact absurd (by simpa [protectedDbNames] using hd) h
    · intro _ hf
      subst hf
      simp [pg_drop_db, h]

/-- Closed instance of `pg_drop_db_protection_exact`: the case variant
`"Postgres"` is not protected (the drop runs and succeeds), while the exact
string `"postgres"` is rejected with HTTP 400. -/
theorem pg_drop_db_protection_exact_witness :
    (pg_drop_db ⟨["postgres", "Postgres"], none⟩ "Postgres" none).issued = true ∧
    (pg_drop_db ⟨["postgres", "Postgres"], none⟩ "Postgres" none).result =
      .success ⟨"dropped", "Postgres"⟩ ∧
    (pg_drop_db ⟨["postgres", "Postgres"], none⟩ "postgres" none).result.statusCode =
      some 400 := by
  have h1 := pg_drop_db_protection_exact ⟨["postgres", "Postgres"], none⟩ "Postgres" none
  have h2 := pg_drop_db_protection_exact ⟨["postgres", "Postgres"], none⟩ "postgres" none
  have h3 := h1.2 (by decide) rfl
  exact ⟨h3.1, h3.2.1, h2.1.mpr (Or.inr rfl)⟩

/-- C4: `/pg/create-db` checks the catalog first.  If the name is present
it returns `already_exists` with no create statement issued and no state
change (whatever the fault oracle, since the create step is never
reached); if absent, the fault-free run issues the create in autocommit
mode, adds the database and returns `created`, and a second fault-free call
with the same name returns `already_exists` with no further change. -/
theorem pg_create_db_check_then_create (s : PgState) (name : String) :
    (name ∈ s.databases →
      (∀ fault, (pg_create_db s name fault).state = s ∧
        (pg_create_db s name fault).issued = false) ∧
      pg_create_db s name none =
        ⟨s, .success ⟨"already_exists", name⟩, ⟨true, true⟩, false⟩) ∧
    (name ∉ s.databases →
      pg_create_db s name none =
        ⟨⟨name :: s.databases, s.table⟩, .success ⟨"created", name⟩, ⟨true, true⟩, true⟩ ∧
      pg_create_db (pg_create_db s name none).state name none =
        ⟨(pg_create_db s name none).state,
         .success ⟨"already_exists", name⟩, ⟨true, true⟩, false⟩) := by
  constructor
  · intro h
    refine ⟨fun fault => ?_, by simp [pg_create_db, h]⟩
    match fault with
    | none => simp [pg_create_db, h]
    | some ⟨.acquire, op, m⟩ => simp [pg_create_db]
    | some ⟨.query, op, m⟩ => simp [pg_create_db]
    | some ⟨.action, op, m⟩ => simp [pg_create_db, h]
  · intro h
    have h1 : pg_create_db s name none =
        ⟨⟨name :: s.databases, s.table⟩, .success ⟨"created", name⟩, ⟨true, true⟩, true⟩ := by
      simp [pg_create_db, h]
    refine ⟨h1, ?_⟩
    rw [h1]
    simp [pg_create_db]

/-- Closed instance of `pg_create_db_check_then_create`: on a catalog
holding only `postgres`, creating `test_newdb` twice answers `created` then
`already_exists`. -/
theorem pg_create_db_check_then_create_witness :
    pg_create_db ⟨["postgres"], none⟩ "test_newdb" none =
      ⟨⟨["test_newdb", "postgres"], none⟩,
       .success ⟨"created", "test_newdb"⟩, ⟨true, true⟩, true⟩ ∧
    pg_create_db ⟨["test_newdb", "postgres"], none⟩ "test_newdb" none =
      ⟨⟨["test_newdb", "postgres"], none⟩,
       .success ⟨"already_exists", "test_newdb"⟩, ⟨true, true⟩, false⟩ := by
  have h := (pg_create_db_check_then_create ⟨["postgres"], none⟩ "test_newdb").2
    (by decide)
  exact ⟨h.1, by rw [h.1] at h; exact h.2⟩

/-- C7: `/pg/create-table` is idempotent on the fault-free path: the first
call leaves the table present, and a second call changes nothing and
returns the same ok response, so two successive calls are equivalent to
one. -/
theorem pg_create_table_idempotent (s : PgState) :
    pg_create_table ((pg_create_table s none).state) none =
      ⟨(pg_create_table s none).state,
       .success ⟨"ok", "test_connection table created"⟩, ⟨true, true⟩⟩ ∧
    (pg_create_table s none).result =
      .success ⟨"ok", "test_connection table created"⟩ ∧
    ((pg_create_table s none).state).table.isSome = true := by
  match hs : s.table with
  | some t =>
    simp [pg_create_table, hs]
  | none =>
    simp [pg_create_table, hs]

/-- `ORDER BY id DESC` returns a permutation of the table rows. -/
theorem sortRowsDesc_perm (l : List Row) : List.Perm (sortRowsDesc l) l :=
  List.perm_insertionSort _ _

/-- `ORDER BY id DESC` output is sorted by descending id. -/
theorem sortRowsDesc_sorted (l : List Row) :
    List.Sorted rowDescId (sortRowsDesc l) :=
  List.sorted_insertionSort _ _

/-- The `LIMIT 10` result never holds more than 10 rows. -/
theorem readRows_length_le (t : TableState) : (readRows t).length ≤ 10 := by
  simp only [readRows, List.length_take]
  exact min_le_left _ _

/-- The `/pg/read` result rows are ordered by descending id. -/
theorem readRows_pairwise (t : TableState) :
    List.Pairwise rowDescId (readRows t) :=
  List.Pairwise.sublist (List.take_sublist 10 _) (sortRowsDesc_sorted t.rows)

/-- Any table row left out of the `/pg/read` result has an id no larger
than every returned row's id: the result is the rows with the largest ids. -/
theorem readRows_maximal (t : TableState) :
    ∀ y ∈ t.rows, y ∉ readRows t → ∀ x ∈ readRows t, y.id ≤ x.id := by
  intro y hy hyn x hx
  have hsort := sortRowsDesc_sorted t.rows
  have hmem : y ∈ sortRowsDesc t.rows := (sortRowsDesc_perm t.rows).mem_iff.mpr hy
  have hsplit := (List.take_append_drop 10 (sortRowsDesc t.rows)).symm
  rw [hsplit] at hsort hmem
  have hxtake : x ∈ (sortRowsDesc t.rows).take 10 := hx
  have hdrop : y ∈ (sortRowsDesc t.rows).drop 10 := by
    rcases List.mem_append.mp hmem with h | h
    · exact absurd h hyn
    · exact h
  exact (List.pairwise_append.mp hsort).2.2 x hxtake y hdrop

/-- Appending a row whose id strictly dominates every existing id puts it
at the head of the descending sort. -/
theorem sortRowsDesc_append_max (l : List Row) (x : Row)
    (h : ∀ r ∈ l, r.id < x.id) :
    ∃ rest, sortRowsDesc (l ++ [x]) = x :: rest := by
  have hperm := sortRowsDesc_perm (l ++ [x])
  have hsort := sortRowsDesc_sorted (l ++ [x])
  cases hl : sortRowsDesc (l ++ [x]) with
  | nil =>
    exfalso
    have hx : x ∈ sortRowsDesc (l ++ [x]) := hperm.mem_iff.mpr (by simp)
    rw [hl] at hx
    exact absurd hx (List.not_mem_nil x)
  | cons h0 rest =>
    refine ⟨rest, ?_⟩
    rw [hl] at hperm hsort
    have hx : x ∈ h0 :: rest := hperm.mem_iff.mpr (by simp)
    have hh0 : h0 ∈ l ++ [x] := hperm.subset (by simp)
    rcases List.mem_cons.mp hx with hx0 | hx'
    · rw [hx0]
    · have hle : x.id ≤ h0.id := (List.sorted_cons.mp hsort).1 x hx'
      rcases List.mem_append.mp hh0 with hmem | hmem
      · exact absurd hle (not_le.mpr (h h0 hmem))
      · have hx0 : h0 = x := by simpa using hmem
        rw [hx0]

/-- The serialized rows of a `/pg/read` success body. -/
def readBodyRows : HResult ReadBody → List SerializedRow
  | .success b => b.rows
  | _ => []

/-- C5 counterexample: on a table holding the single row `(1, "m", 0)`,
the `/pg/read` response serializes the `id` field as the JSON number `1`,
not as text. -/
theorem pg_read_id_serialized_as_number :
    (readBodyRows (pg_read ⟨[], some ⟨[⟨1, "m", 0⟩], 2⟩⟩ none).1).map
      SerializedRow.id = [.jInt 1] ∧
    (JValue.jInt 1).isText = false :=
  ⟨rfl, rfl⟩

/-- C5 (amended): on the fault-free path `/pg/read` returns at most 10
rows, the rows with the largest identifiers ordered by descending id, with
`count` equal to the number of returned rows; each row's `created_at` is
serialized as text and its `message` is the stored text, while `id` is
serialized as a JSON number, not text. -/
theorem pg_read_spec (dbs : List String) (t : TableState) :
    (pg_read ⟨dbs, some t⟩ none).1 =
      .success ⟨"ok", (readRows t).length, (readRows t).map serializeRow⟩ ∧
    (readRows t).length ≤ 10 ∧
    List.Pairwise rowDescId (readRows t) ∧
    (∀ y ∈ t.rows, y ∉ readRows t → ∀ x ∈ readRows t, y.id ≤ x.id) ∧
    (∀ sr ∈ (readRows t).map serializeRow,
      sr.created_at.isText = true ∧ sr.message.isText = true ∧
        sr.id.isText = false) := by
  refine ⟨rfl, readRows_length_le t, readRows_pairwise t, readRows_maximal t, ?_⟩
  intro sr hsr
  rcases List.mem_map.mp hsr with ⟨r, _, rfl⟩
  exact ⟨rfl, rfl, rfl⟩

/-- Closed instance of `pg_read_spec` on a two-row table. -/
theorem pg_read_spec_witness :
    (pg_read ⟨[], some ⟨[⟨1, "a", 0⟩, ⟨2, "b", 1⟩], 3⟩⟩ none).1 =
      .success ⟨"ok", 2,
        [⟨.jInt 2, .jStr "b", .jStr (tsToString 1)⟩,
         ⟨.jInt 1, .jStr "a", .jStr (tsToString 0)⟩]⟩ ∧
    (readRows ⟨[⟨1, "a", 0⟩, ⟨2, "b", 1⟩], 3⟩).length ≤ 10 := by
  have h := pg_read_spec [] ⟨[⟨1, "a", 0⟩, ⟨2, "b", 1⟩], 3⟩
  refine ⟨?_, h.2.1⟩
  rw [h.1]
  rfl

/-- C8: a fault-free `/pg/insert` of `msg` (on a table whose ids all lie
below the serial counter) followed by `/pg/read` returns the inserted
message among the up-to-10 returned rows: the new row has the highest id,
sits at the head of the response, and the rows are ordered by descending
id. -/
theorem pg_insert_then_read (dbs : List String) (t : TableState) (msg : String)
    (now : Nat) (hinv : ∀ r ∈ t.rows, r.id < t.nextId) :
    (pg_insert ⟨dbs, some t⟩ msg now none).result =
      .success ⟨"inserted", t.nextId, msg, tsToString now⟩ ∧
    (pg_insert ⟨dbs, some t⟩ msg now none).state =
      ⟨dbs, some ⟨t.rows ++ [⟨t.nextId, msg, now⟩], t.nextId + 1⟩⟩ ∧
    (pg_read (pg_insert ⟨dbs, some t⟩ msg now none).state none).1 =
      .success ⟨"ok",
        (readRows ⟨t.rows ++ [⟨t.nextId, msg, now⟩], t.nextId + 1⟩).length,
        (readRows ⟨t.rows ++ [⟨t.nextId, msg, now⟩], t.nextId + 1⟩).map
          serializeRow⟩ ∧
    (readRows ⟨t.rows ++ [⟨t.nextId, msg, now⟩], t.nextId + 1⟩).head? =
      some ⟨t.nextId, msg, now⟩ ∧
    List.Pairwise rowDescId
      (readRows ⟨t.rows ++ [⟨t.nextId, msg, now⟩], t.nextId + 1⟩) ∧
    msg ∈ (readRows ⟨t.rows ++ [⟨t.nextId, msg, now⟩], t.nextId + 1⟩).map
      Row.message := by
  obtain ⟨rest, hrest⟩ := sortRowsDesc_append_max t.rows ⟨t.nextId, msg, now⟩ hinv
  have hrr : readRows ⟨t.rows ++ [⟨t.nextId, msg, now⟩], t.nextId + 1⟩ =
      ⟨t.nextId, msg, now⟩ :: rest.take 9 := by
    show (sortRowsDesc (t.rows ++ [⟨t.nextId, msg, now⟩])).take 10 = _
    rw [hrest]
    rfl
  refine ⟨rfl, rfl, rfl, ?_, readRows_pairwise _, ?_⟩
  · rw [hrr]
    rfl
  · rw [hrr]
    simp

/-- Closed instance of `pg_insert_then_read`: inserting `"hello"` into a
one-row table and reading back. -/
theorem pg_insert_then_read_witness :
    (pg_insert ⟨[], some ⟨[⟨1, "a", 5⟩], 2⟩⟩ "hello" 7 none).result =
      .success ⟨"inserted", 2, "hello", tsToString 7⟩ ∧
    (readRows ⟨[⟨1, "a", 5⟩, ⟨2, "hello", 7⟩], 3⟩).head? =
      some ⟨2, "hello", 7⟩ ∧
    "hello" ∈ (readRows ⟨[⟨1, "a", 5⟩, ⟨2, "hello", 7⟩], 3⟩).map
      Row.message := by
  have h := pg_insert_then_read [] ⟨[⟨1, "a", 5⟩], 2⟩ "hello" 7
    (by intro r hr; simp at hr; rw [hr]; decide)
  exact ⟨h.1, h.2.2.2.1, h.2.2.2.2.2⟩

/-- C2 counterexample: an `OperationalError` with message `"boom"` during
`/pg/connect` is surfaced with detail `"PG connection failed: boom"`, which
is not the underlying fault's message `"boom"`. -/
theorem pg_connect_detail_not_raw_message :
    (pg_connect "v" (some ⟨.action, true, "boom"⟩)).1 =
      .httpError 500 "PG connection failed: boom" ∧
    "PG connection failed: boom" ≠ "boom" :=
  ⟨rfl, by decide⟩

/-- C2 (amended): backend faults are mapped at the handler boundary as
follows.  Every handler except the two connect-tests returns HTTP 500 with
the underlying fault's message as the detail; the protected-database-drop
case returns HTTP 400 regardless of faults; `/pg/connect` maps only
`OperationalError` (any other fault escapes the handler unmapped) and
prefixes its detail with `"PG connection failed: "`; `/redis/connect`
catches every fault but prefixes its detail with
`"Redis connection failed: "`. -/
theorem handler_error_mapping (s : PgState) (rs : RedisState) (k : Bool)
    (m ver name key msg : String) (now : Nat) :
    (name ∉ s.databases →
      (pg_create_db s name (some ⟨.action, k, m⟩)).result = .httpError 500 m) ∧
    (name ∈ protectedDbNames → ∀ fault,
      (pg_drop_db s name fault).result =
        .httpError 400 "Cannot drop protected database") ∧
    (name ∉ protectedDbNames →
      (pg_drop_db s name (some ⟨.acquire, k, m⟩)).result = .httpError 500 m ∧
      (pg_drop_db s name (some ⟨.action, k, m⟩)).result = .httpError 500 m) ∧
    (pg_connect ver (some ⟨.acquire, true, m⟩)).1 =
      .httpError 500 ("PG connection failed: " ++ m) ∧
    (pg_connect ver (some ⟨.action, true, m⟩)).1 =
      .httpError 500 ("PG connection failed: " ++ m) ∧
    (pg_connect ver (some ⟨.acquire, false, m⟩)).1 = .unhandled m ∧
    (pg_connect ver (some ⟨.action, false, m⟩)).1 = .unhandled m ∧
    (pg_create_table s (some ⟨.acquire, k, m⟩)).result = .httpError 500 m ∧
    (pg_create_table s (some ⟨.action, k, m⟩)).result = .httpError 500 m ∧
    (pg_insert s msg now (some ⟨.acquire, k, m⟩)).result = .httpError 500 m ∧
    (pg_insert s msg now (some ⟨.action, k, m⟩)).result = .httpError 500 m ∧
    (pg_read s (some ⟨.acquire, k, m⟩)).1 = .httpError 500 m ∧
    (pg_read s (some ⟨.action, k, m⟩)).1 = .httpError 500 m ∧
    (pg_create_db s name (some ⟨.acquire, k, m⟩)).result = .httpError 500 m ∧
    (pg_create_db s name (some ⟨.query, k, m⟩)).result = .httpError 500 m ∧
    pg_tables s (some ⟨.acquire, k, m⟩) = .httpError 500 m ∧
    redis_connect ver (some m) =
      .httpError 500 ("Redis connection failed: " ++ m) ∧
    (redis_write rs key msg now (some m)).2 = .httpError 500 m ∧
    redis_read rs key now (some m) = .httpError 500 m := by
  refine ⟨?_, ?_, ?_, rfl, rfl, rfl, rfl, rfl, rfl, rfl, rfl, rfl, rfl, rfl,
    rfl, rfl, rfl, rfl, rfl⟩
  · intro h
    simp [pg_create_db, h]
  · intro h fault
    simp [pg_drop_db, h]
  · intro h
    exact ⟨by simp [pg_drop_db, h], by simp [pg_drop_db, h]⟩

/-- Closed instance of `handler_error_mapping`: a fault during the create
statement for a fresh name is a 500 with the raw message, dropping
`postgres` is a 400 despite a pending fault, and a fault while dropping a
non-protected name is a 500 with the raw message. -/
theorem handler_error_mapping_witness :
    (pg_create_db ⟨["postgres"], none⟩ "x"
      (some ⟨.action, true, "boom"⟩)).result = .httpError 500 "boom" ∧
    (pg_drop_db ⟨["postgres"], none⟩ "postgres"
      (some ⟨.action, true, "boom"⟩)).result =
      .httpError 400 "Cannot drop protected database" ∧
    (pg_drop_db ⟨["postgres"], none⟩ "x"
      (some ⟨.acquire, true, "boom"⟩)).result = .httpError 500 "boom" := by
  have h1 := handler_error_mapping ⟨["postgres"], none⟩ ⟨[]⟩ true "boom" "v" "x"
    "k" "m" 0
  have h2 := handler_error_mapping ⟨["postgres"], none⟩ ⟨[]⟩ true "boom" "v"
    "postgres" "k" "m" 0
  exact ⟨h1.1 (by decide), h2.2.1 (by decide) (some ⟨.action, true, "boom"⟩),
    (h1.2.2.1 (by decide)).1⟩

/-- C3 counterexample: a backend fault during the create statement of
`/pg/create-db` leaves the raw connection acquired but never released (the
explicit close calls on the success path are skipped by the exception). -/
theorem raw_connection_leak_on_fault :
    (pg_create_db ⟨["postgres"], none⟩ "newdb"
      (some ⟨.action, false, "boom"⟩)).conn.acquired = true ∧
    (pg_create_db ⟨["postgres"], none⟩ "newdb"
      (some ⟨.action, false, "boom"⟩)).conn.released = false := by
  constructor <;> decide

/-- C3 (amended): handlers using `with engine.connect()` release their
connection on every exit path, fault paths included; `/pg/create-db` and
`/pg/drop-db` close their raw connection and cursor on every success path
(the protected-name rejection acquires no connection at all), but when the
backend raises after acquisition the raw connection is left unreleased. -/
theorem connection_release_paths (s : PgState) (ver name msg : String)
    (now : Nat) (fault : Option Fault) :
    ((pg_connect ver fault).2.acquired = true →
      (pg_connect ver fault).2.released = true) ∧
    ((pg_create_table s fault).conn.acquired = true →
      (pg_create_table s fault).conn.released = true) ∧
    ((pg_insert s msg now fault).conn.acquired = true →
      (pg_insert s msg now fault).conn.released = true) ∧
    ((pg_read s fault).2.acquired = true →
      (pg_read s fault).2.released = true) ∧
    (pg_create_db s name none).conn = ⟨true, true⟩ ∧
    (name ∈ protectedDbNames → (pg_drop_db s name fault).conn = ⟨false, false⟩) ∧
    (name ∉ protectedDbNames → (pg_drop_db s name none).conn = ⟨true, true⟩) ∧
    (name ∉ s.databases → ∀ k m,
      (pg_create_db s name (some ⟨.action, k, m⟩)).conn = ⟨true, false⟩) ∧
    (∀ k m, (pg_create_db s name (some ⟨.query, k, m⟩)).conn = ⟨true, false⟩) ∧
    (name ∉ protectedDbNames → ∀ k m,
      (pg_drop_db s name (some ⟨.action, k, m⟩)).conn = ⟨true, false⟩) := by
  refine ⟨?_, ?_, ?_, ?_, ?_, ?_, ?_, ?_, ?_, ?_⟩
  · intro ha
    rcases fault with _ | ⟨p, op, m⟩
    · exact ha
    · cases p <;> cases op <;> exact ha
  · intro ha
    rcases fault with _ | ⟨p, op, m⟩
    · rcases hs : s.table with _ | t <;> simp [pg_create_table, hs]
    · cases p <;> first
        | exact ha
        | rcases hs : s.table with _ | t <;> simp [pg_create_table, hs]
  · intro ha
    rcases fault with _ | ⟨p, op, m⟩
    · rcases hs : s.table with _ | t <;> simp [pg_insert, hs]
    · cases p <;> first
        | exact ha
        | rcases hs : s.table with _ | t <;> simp [pg_insert, hs]
  · intro ha
    rcases fault with _ | ⟨p, op, m⟩
    · rcases hs : s.table with _ | t <;> simp [pg_read, hs]
    · cases p <;> first
        | exact ha
        | rcases hs : s.table with _ | t <;> simp [pg_read, hs]
  · by_cases h : name ∈ s.databases <;> simp [pg_create_db, h]
  · intro h
    simp [pg_drop_db, h]
  · intro h
    simp [pg_drop_db, h]
  · intro h k m
    simp [pg_create_db, h]
  · intro k m
    simp [pg_create_db]
  · intro h k m
    simp [pg_drop_db, h]

/-- Closed instance of `connection_release_paths`: the drop of a
non-protected name on the fault-free path closes its raw connection, and
the protected rejection acquires none. -/
theorem connection_release_paths_witness :
    (pg_drop_db ⟨["postgres"], none⟩ "newdb" none).conn = ⟨true, true⟩ ∧
    (pg_drop_db ⟨["postgres"], none⟩ "postgres" none).conn = ⟨false, false⟩ ∧
    (pg_create_db ⟨["postgres"], none⟩ "newdb"
      (some ⟨.action, true, "boom"⟩)).conn = ⟨true, false⟩ := by
  have h := connection_release_paths ⟨["postgres"], none⟩ "v" "newdb" "m" 0 none
  have h2 := connection_release_paths ⟨["postgres"], none⟩ "v" "postgres" "m" 0
    none
  exact ⟨h.2.2.2.2.2.2.1 (by decide), h2.2.2.2.2.2.1 (by decide),
    h.2.2.2.2.2.2.2.1 (by decide) true "boom"⟩

/-- C6: `/test-all` always returns the three section keys `pg_connect`,
`pg_readwrite`, `redis`; each section reports
`{"status": "error", "detail": str(e)}` exactly when its own block faults
and an ok status otherwise; and each section's value is independent of the
other sections' faults, so one failing backend does not stop the others
from running and reporting ok. -/
theorem test_all_section_isolation (pgVer : String) (s : PgState)
    (rs : RedisState) (now : Nat) (f1 f2 f3 : Option String) :
    ((test_all pgVer s rs now f1 f2 f3).2.2).map Prod.fst =
      ["pg_connect", "pg_readwrite", "redis"] ∧
    (∀ m, f1 = some m →
      List.lookup "pg_connect" (test_all pgVer s rs now f1 f2 f3).2.2 =
        some (.secError m)) ∧
    (f1 = none →
      (List.lookup "pg_connect" (test_all pgVer s rs now f1 f2 f3).2.2).map
        SectionResult.status = some "ok") ∧
    (∀ m, f2 = some m →
      List.lookup "pg_readwrite" (test_all pgVer s rs now f1 f2 f3).2.2 =
        some (.secError m)) ∧
    (f2 = none →
      (List.lookup "pg_readwrite" (test_all pgVer s rs now f1 f2 f3).2.2).map
        SectionResult.status = some "ok") ∧
    (∀ m, f3 = some m →
      List.lookup "redis" (test_all pgVer s rs now f1 f2 f3).2.2 =
        some (.secError m)) ∧
    (f3 = none →
      (List.lookup "redis" (test_all pgVer s rs now f1 f2 f3).2.2).map
        SectionResult.status = some "ok") ∧
    (∀ g2 g3, List.lookup "pg_connect" (test_all pgVer s rs now f1 g2 g3).2.2 =
      List.lookup "pg_connect" (test_all pgVer s rs now f1 f2 f3).2.2) ∧
    (∀ g1 g3, List.lookup "pg_readwrite" (test_all pgVer s rs now g1 f2 g3).2.2 =
      List.lookup "pg_readwrite" (test_all pgVer s rs now f1 f2 f3).2.2) ∧
    (∀ g1 g2, List.lookup "redis" (test_all pgVer s rs now g1 g2 f3).2.2 =
      List.lookup "redis" (test_all pgVer s rs now f1 f2 f3).2.2) := by
  refine ⟨rfl, ?_, ?_, ?_, ?_, ?_, ?_, ?_, ?_, ?_⟩
  · intro m hm
    subst hm
    rfl
  · intro h
    subst h
    rfl
  · intro m hm
    subst hm
    rfl
  · intro h
    subst h
    rfl
  · intro m hm
    subst hm
    rfl
  · intro h
    subst h
    rfl
  · intro g2 g3
    rfl
  · intro g1 g3
    rfl
  · intro g1 g2
    rfl

/-- Closed instance of `test_all_section_isolation`: PostgreSQL down (both
PG sections fault) while Redis is healthy still yields all three keys, the
PG sections in error and the redis section ok. -/
theorem test_all_section_isolation_witness :
    ((test_all "v" ⟨[], none⟩ ⟨[]⟩ 0 (some "PG down") (some "PG down")
      none).2.2).map Prod.fst = ["pg_connect", "pg_readwrite", "redis"] ∧
    List.lookup "pg_connect" (test_all "v" ⟨[], none⟩ ⟨[]⟩ 0 (some "PG down")
      (some "PG down") none).2.2 = some (.secError "PG down") ∧
    (List.lookup "redis" (test_all "v" ⟨[], none⟩ ⟨[]⟩ 0 (some "PG down")
      (some "PG down") none).2.2).map SectionResult.status = some "ok" := by
  have h := test_all_section_isolation "v" ⟨[], none⟩ ⟨[]⟩ 0 (some "PG down")
    (some "PG down") none
  exact ⟨h.1, h.2.1 "PG down" rfl, h.2.2.2.2.2.2.1 rfl⟩

/-- C9: a fault-free `/redis/write` stores the value under the key with a
300-second expiry, overwriting whatever was there, and answers
`{"status": "written", key, value, "ttl": 300}`; a `/redis/read` of that
key before expiry answers the written value with a remaining TTL that is
positive and at most 300. -/
theorem redis_write_then_read (rs : RedisState) (k v : String) (now t : Nat)
    (h1 : now ≤ t) (h2 : t < now + 300) :
    (redis_write rs k v now none).2 = .success ⟨"written", k, v, 300⟩ ∧
    redisFind (redis_write rs k v now none).1 k = some (v, now + 300) ∧
    redis_read (redis_write rs k v now none).1 k t none =
      .success ⟨"ok", k, some v, ((now : Int) + 300) - (t : Int)⟩ ∧
    0 < ((now : Int) + 300) - (t : Int) ∧
    ((now : Int) + 300) - (t : Int) ≤ 300 := by
  have hfind : redisFind (redis_write rs k v now none).1 k =
      some (v, now + 300) := by
    simp [redis_write, redisSet, redisFind, List.find?]
  refine ⟨rfl, hfind, ?_, by omega, by omega⟩
  simp [redis_read, redisGet, redisTtl, hfind, h2]

/-- Closed instance of `redis_write_then_read`: write `k1` / `v1` at time
0, read it back at time 10. -/
theorem redis_write_then_read_witness :
    (redis_write ⟨[]⟩ "k1" "v1" 0 none).2 =
      .success ⟨"written", "k1", "v1", 300⟩ ∧
    redis_read (redis_write ⟨[]⟩ "k1" "v1" 0 none).1 "k1" 10 none =
      .success ⟨"ok", "k1", some "v1", ((0 : Int) + 300) - (10 : Int)⟩ ∧
    0 < ((0 : Int) + 300) - (10 : Int) ∧
    ((0 : Int) + 300) - (10 : Int) ≤ 300 := by
  have h := redis_write_then_read ⟨[]⟩ "k1" "v1" 0 10 (by omega) (by omega)
  exact ⟨h.1, h.2.2.1, h.2.2.2.1, h.2.2.2.2⟩
